import Mathlib

/-!
Verification of the items/media API layer.

Shallow embedding of two source files:
- src/backend/app/api/routes/items.py  (route handlers read_items, read_item,
  upload_media, add_media_to_item, update_item, delete_item)
- src/backend/app/core/media.py        (MediaService: _validate_file,
  upload_file, delete_file)

External collaborators (the database session, the libmagic sniffer, and the
media backend) are passed in as explicit function parameters, so the embedded
handlers are pure functions of their inputs.
-/

namespace FastapiItems

/-- Requester identity, as supplied by the authentication dependency:
an id and an is-superuser flag. -/
structure Requester where
  id : Nat
  is_superuser : Bool
  deriving DecidableEq, Repr

/-- The Item row, with the fields the route handlers read and write:
owner_id for access control, and the media fields media_type, image_url,
video_url written by add_media_to_item. -/
structure Item where
  id : Nat
  owner_id : Nat
  title : String
  description : Option String
  media_type : Option String
  image_url : Option String
  video_url : Option String
  deriving DecidableEq, Repr

/-- Caller-facing error outcomes of the handlers, one constructor per
raise site: HTTPException 404, 400 permissions, 413, 400 unsupported type,
and 500 upload failure. -/
inductive MediaError where
  | notFound
  | forbidden
  | payloadTooLarge
  | unsupportedMediaType (mime : String)
  | uploadFailed (msg : String)
  deriving DecidableEq, Repr

/-- An incoming UploadFile: declared size (may be absent), raw content
bytes, client-supplied filename and declared content type. -/
structure UploadFile where
  size : Option Nat
  content : List Nat
  filename : Option String
  content_type : Option String
  deriving DecidableEq, Repr

/-- Result dict returned by MediaService.upload_file: the fields that
add_media_to_item consumes. -/
structure UploadResult where
  url : String
  public_id : String
  resource_type : String
  deriving DecidableEq, Repr

/-- The persistence store: the set of Item rows, as a list. -/
abbrev Store := List Item

/-- session.get(Item, id): first row whose id matches. -/
def getItem (st : Store) (itemId : Nat) : Option Item :=
  st.find? (fun it => it.id == itemId)

/-- session.add + commit on an existing row: replace the row with the
matching id. -/
def setItem (st : Store) (it : Item) : Store :=
  st.map (fun x => if x.id == it.id then it else x)

/-- session.delete + commit: remove the row with the given id. -/
def removeItem (st : Store) (itemId : Nat) : Store :=
  st.filter (fun x => x.id != itemId)

/-- allowed_image_types from MediaService._validate_file. -/
def allowed_image_types : List String :=
  ["image/jpeg", "image/png", "image/gif", "image/webp"]

/-- allowed_video_types from MediaService._validate_file. -/
def allowed_video_types : List String :=
  ["video/mp4", "video/webm", "video/ogg", "video/quicktime"]

/-- Python truthiness of the Optional[int] size field: None and 0 are
falsy, every other number is truthy. -/
def sizeTruthy : Option Nat → Bool
  | none => false
  | some n => n != 0

/-- MediaService._validate_file. The libmagic call
magic.from_buffer(content, mime=True) on the first 2048 bytes is the
parameter sniff. Raises 413 when the declared size is truthy and exceeds
max_size_mb converted to bytes; raises 400 when the sniffed MIME type is
not in the allow-list. The filename is never consulted. -/
def validate_file (sniff : List Nat → String) (file : UploadFile)
    (max_size_mb : Nat) : Except MediaError Unit :=
  if sizeTruthy file.size = true ∧ max_size_mb * 1024 * 1024 < file.size.getD 0 then
    Except.error MediaError.payloadTooLarge
  else if sniff (file.content.take 2048) ∉ allowed_image_types ++ allowed_video_types then
    Except.error (MediaError.unsupportedMediaType (sniff (file.content.take 2048)))
  else
    Except.ok ()

/-- MediaService.upload_file: validate with the default 10 MB limit, then
delegate to the configured backend (the cloudinary or local-disk uploader,
abstracted as the backend parameter; both report failure as HTTPException
500, embedded as an Except error). -/
def upload_file (sniff : List Nat → String)
    (backend : UploadFile → String → Except MediaError UploadResult)
    (file : UploadFile) (folder : String) : Except MediaError UploadResult :=
  match validate_file sniff file 10 with
  | Except.error e => Except.error e
  | Except.ok _ => backend file folder

/-- MediaService.delete_file, cloudinary branch: cloudinary.uploader.destroy
may raise (modelled as Except.error); the handler swallows the exception and
returns false, otherwise returns whether the result field equals ok. -/
def delete_file_cloudinary (destroy : String → Except String String)
    (public_id : String) : Bool :=
  match destroy public_id with
  | Except.ok r => r == "ok"
  | Except.error _ => false

/-- The access check shared by read_item, update_item, delete_item and
add_media_to_item, exactly as written in the source:
not current_user.is_superuser and (item.owner_id != current_user.id). -/
def deniedCond (cu : Requester) (item : Item) : Bool :=
  !cu.is_superuser && (item.owner_id != cu.id)

/-- GET /items/ (read_items): superuser branch counts and pages the whole
table; the other branch counts and pages the rows whose owner_id equals the
requester id. offset/limit become List.drop/List.take. -/
def read_items (st : Store) (cu : Requester) (skip limit : Nat) :
    List Item × Nat :=
  if cu.is_superuser then
    ((st.drop skip).take limit, st.length)
  else
    let owned := st.filter (fun it => it.owner_id == cu.id)
    ((owned.drop skip).take limit, owned.length)

/-- GET /items/{id} (read_item): 404 when absent, 400 when the access
check denies, otherwise the item. -/
def read_item (st : Store) (cu : Requester) (itemId : Nat) :
    Except MediaError Item :=
  match getItem st itemId with
  | none => Except.error MediaError.notFound
  | some item =>
    if deniedCond cu item then Except.error MediaError.forbidden
    else Except.ok item

/-- ItemUpdate payload: optional new title and description
(model_dump with exclude_unset keeps only the fields that were set). -/
structure ItemUpdate where
  title : Option String
  description : Option String
  deriving DecidableEq, Repr

/-- item.sqlmodel_update(update_dict): each field present in the payload
overwrites the row field. -/
def applyUpdate (item : Item) (u : ItemUpdate) : Item :=
  { item with
    title := u.title.getD item.title,
    description := match u.description with
      | none => item.description
      | some d => some d }

/-- PUT /items/{id} (update_item): 404 when absent, 400 when denied,
otherwise apply the payload and persist. -/
def update_item (st : Store) (cu : Requester) (itemId : Nat)
    (item_in : ItemUpdate) : Except MediaError Item × Store :=
  match getItem st itemId with
  | none => (Except.error MediaError.notFound, st)
  | some item =>
    if deniedCond cu item then (Except.error MediaError.forbidden, st)
    else
      let item2 := applyUpdate item item_in
      (Except.ok item2, setItem st item2)

/-- DELETE /items/{id} (delete_item). In the source, the two media-cleanup
branches (lines 161 to 166) are pass statements: no call is made on the
media backend, which is why the mediaDelete parameter is never used. The
row is then deleted and a success message returned. -/
def delete_item (mediaDelete : String → Except String Bool)
    (st : Store) (cu : Requester) (itemId : Nat) :
    Except MediaError String × Store :=
  match getItem st itemId with
  | none => (Except.error MediaError.notFound, st)
  | some item =>
    if deniedCond cu item then (Except.error MediaError.forbidden, st)
    else
      (Except.ok "Item deleted successfully", removeItem st itemId)

/-- The media-field mapping inside add_media_to_item (lines 106 to 111):
an if/elif with no else. Image sets image_url and media_type; video sets
video_url and media_type; any other resource_type changes nothing. Note
the image branch does not touch video_url and conversely. -/
def applyMedia (item : Item) (r : UploadResult) : Item :=
  if r.resource_type == "image" then
    { item with image_url := some r.url, media_type := some "image" }
  else if r.resource_type == "video" then
    { item with video_url := some r.url, media_type := some "video" }
  else
    item

/-- POST /items/{id}/media (add_media_to_item): 404 when absent, 400 when
denied, then upload_file runs; only when it succeeds are the media fields
mapped and the row persisted. An upload error propagates with the store
untouched. -/
def add_media_to_item (sniff : List Nat → String)
    (backend : UploadFile → String → Except MediaError UploadResult)
    (st : Store) (cu : Requester) (itemId : Nat) (file : UploadFile) :
    Except MediaError Item × Store :=
  match getItem st itemId with
  | none => (Except.error MediaError.notFound, st)
  | some item =>
    if deniedCond cu item then (Except.error MediaError.forbidden, st)
    else
      match upload_file sniff backend file "items" with
      | Except.error e => (Except.error e, st)
      | Except.ok r =>
        let item2 := applyMedia item r
        (Except.ok item2, setItem st item2)

/-- POST /items/upload-media (upload_media): the handler takes only the
file and the media service; there is no current_user or session dependency
and no item access. It returns upload_file on the default items folder and
the store is untouched. -/
def upload_media (sniff : List Nat → String)
    (backend : UploadFile → String → Except MediaError UploadResult)
    (st : Store) (file : UploadFile) :
    Except MediaError UploadResult × Store :=
  (upload_file sniff backend file "items", st)

end FastapiItems

namespace FastapiItems

/-- The shared access check denies exactly when the requester is neither
superuser nor owner. -/
theorem deniedCond_false_iff (cu : Requester) (item : Item) :
    deniedCond cu item = false ↔
      (cu.is_superuser = true ∨ item.owner_id = cu.id) := by
  cases h : cu.is_superuser <;>
    simp [deniedCond, h, bne_eq_false_iff_eq]

/-- After removeItem, the removed id is no longer found. -/
theorem getItem_removeItem (st : Store) (itemId : Nat) :
    getItem (removeItem st itemId) itemId = none := by
  simp [getItem, removeItem, List.find?_eq_none, List.mem_filter]

/-- The set of items the listing operation is scoped to before pagination:
the whole table for a superuser, the rows owned by the requester otherwise. -/
def scopedItems (st : Store) (cu : Requester) : List Item :=
  if cu.is_superuser then st
  else st.filter (fun it => it.owner_id == cu.id)

end FastapiItems

namespace FastapiItems

/-- A sample item owned by user 7, with no media. -/
def itemA : Item :=
  { id := 1, owner_id := 7, title := "t", description := none,
    media_type := none, image_url := none, video_url := none }

/-- A non-superuser requester who does not own itemA. -/
def strangerReq : Requester := { id := 9, is_superuser := false }

/-- An empty update payload. -/
def noUpdate : ItemUpdate := { title := none, description := none }

/-- A backend destroy stub that always reports success. -/
def okDestroy : String → Except String Bool := fun _ => Except.ok true

/-- Claim C2: once the item is found, each of read, update and delete
succeeds exactly when the requester is a superuser or the owner, and
otherwise fails with the permission denial. -/
theorem per_item_access_iff (st : Store) (cu : Requester) (itemId : Nat)
    (item : Item) (u : ItemUpdate) (d : String → Except String Bool)
    (h : getItem st itemId = some item) :
    (read_item st cu itemId =
      if cu.is_superuser = true ∨ item.owner_id = cu.id then Except.ok item
      else Except.error MediaError.forbidden) ∧
    ((update_item st cu itemId u).1 =
      if cu.is_superuser = true ∨ item.owner_id = cu.id then
        Except.ok (applyUpdate item u)
      else Except.error MediaError.forbidden) ∧
    ((delete_item d st cu itemId).1 =
      if cu.is_superuser = true ∨ item.owner_id = cu.id then
        Except.ok "Item deleted successfully"
      else Except.error MediaError.forbidden) := by
  by_cases hp : cu.is_superuser = true ∨ item.owner_id = cu.id
  · have hd : deniedCond cu item = false := (deniedCond_false_iff cu item).mpr hp
    simp [read_item, update_item, delete_item, h, hd, hp]
  · have hd : deniedCond cu item = true := by
      cases hdc : deniedCond cu item
      · exact absurd ((deniedCond_false_iff cu item).mp hdc) hp
      · rfl
    simp [read_item, update_item, delete_item, h, hd, hp]

/-- Witness for C2 at a concrete store, item and requester. -/
theorem per_item_access_iff_witness :
    getItem [itemA] 1 = some itemA ∧
    ((read_item [itemA] strangerReq 1 =
      if strangerReq.is_superuser = true ∨ itemA.owner_id = strangerReq.id then
        Except.ok itemA
      else Except.error MediaError.forbidden) ∧
    ((update_item [itemA] strangerReq 1 noUpdate).1 =
      if strangerReq.is_superuser = true ∨ itemA.owner_id = strangerReq.id then
        Except.ok (applyUpdate itemA noUpdate)
      else Except.error MediaError.forbidden) ∧
    ((delete_item okDestroy [itemA] strangerReq 1).1 =
      if strangerReq.is_superuser = true ∨ itemA.owner_id = strangerReq.id then
        Except.ok "Item deleted successfully"
      else Except.error MediaError.forbidden)) :=
  ⟨rfl, per_item_access_iff [itemA] strangerReq 1 itemA noUpdate okDestroy rfl⟩

/-- Claim C3: listing pages a superuser over the whole table and anyone
else over exactly the rows they own; every returned row comes from the
table, and the returned count is the length of the ownership-scoped set
before drop/take pagination is applied. -/
theorem read_items_scoped (st : Store) (cu : Requester) (skip limit : Nat) :
    (read_items st cu skip limit).1 =
      ((scopedItems st cu).drop skip).take limit ∧
    (read_items st cu skip limit).2 = (scopedItems st cu).length ∧
    (∀ it, it ∈ (read_items st cu skip limit).1 → it ∈ st) ∧
    (cu.is_superuser = false →
      ∀ it, it ∈ (read_items st cu skip limit).1 → it.owner_id = cu.id) := by
  by_cases hs : cu.is_superuser
  · refine ⟨by simp [read_items, scopedItems, hs], by simp [read_items, scopedItems, hs], ?_, ?_⟩
    · intro it hit
      simp only [read_items, hs, if_pos] at hit
      exact List.mem_of_mem_drop (List.mem_of_mem_take hit)
    · intro hfalse
      rw [hs] at hfalse
      exact absurd hfalse (by simp)
  · have hs' : cu.is_superuser = false := by
      cases hb : cu.is_superuser
      · rfl
      · exact absurd hb hs
    refine ⟨by simp [read_items, scopedItems, hs'], by simp [read_items, scopedItems, hs'], ?_, ?_⟩
    · intro it hit
      simp only [read_items, hs', Bool.false_eq_true, if_neg, not_false_iff] at hit
      have hmem := List.mem_of_mem_drop (List.mem_of_mem_take hit)
      exact (List.mem_filter.mp hmem).1
    · intro _ it hit
      simp only [read_items, hs', Bool.false_eq_true, if_neg, not_false_iff] at hit
      have hmem := List.mem_of_mem_drop (List.mem_of_mem_take hit)
      have hp := (List.mem_filter.mp hmem).2
      simpa using hp

end FastapiItems

namespace FastapiItems

/-- A sniffer stub classifying content as image/jpeg. -/
def jpegSniff : List Nat → String := fun _ => "image/jpeg"

/-- A sniffer stub classifying content as text/plain (the behavior of
libmagic on plain-text bytes, whatever the filename says). -/
def textSniff : List Nat → String := fun _ => "text/plain"

/-- A small well-formed upload. -/
def smallJpeg : UploadFile :=
  { size := some 1024, content := [255, 216, 255, 224],
    filename := some "a.jpg", content_type := some "image/jpeg" }

/-- Plain-text bytes renamed to photo.jpg. -/
def textFile : UploadFile :=
  { size := some 100, content := [104, 105],
    filename := some "photo.jpg", content_type := some "image/jpeg" }

/-- The image upload result used in examples. -/
def imageResult : UploadResult :=
  { url := "https://cdn.example/img1", public_id := "p1",
    resource_type := "image" }

/-- An upload result with a resource_type outside image and video. -/
def rawResult : UploadResult :=
  { url := "https://cdn.example/raw1", public_id := "p2",
    resource_type := "raw" }

/-- A backend stub returning imageResult. -/
def imageBackend : UploadFile → String → Except MediaError UploadResult :=
  fun _ _ => Except.ok imageResult

/-- A backend stub returning rawResult. -/
def rawBackend : UploadFile → String → Except MediaError UploadResult :=
  fun _ _ => Except.ok rawResult

/-- The non-superuser owner of the sample items. -/
def ownerReq : Requester := { id := 7, is_superuser := false }

/-- A superuser requester. -/
def superReq : Requester := { id := 0, is_superuser := true }

/-- An item of user 7 currently holding video media. -/
def itemWithVideo : Item :=
  { id := 1, owner_id := 7, title := "t", description := none,
    media_type := some "video", image_url := none,
    video_url := some "https://cdn.example/vid0" }

/-- Claim C1, code behavior at the failing input: attaching an image
upload result to an item whose video_url is set yields media_type image
and image_url set, but the stale video_url is NOT cleared (the image
branch of add_media_to_item never touches video_url), so the
mutual-exclusion invariant over the media fields is broken. -/
theorem attach_image_keeps_stale_video_url :
    (add_media_to_item jpegSniff imageBackend [itemWithVideo] ownerReq 1
        smallJpeg).1
      = Except.ok { itemWithVideo with
          image_url := some "https://cdn.example/img1",
          media_type := some "image" } ∧
    ({ itemWithVideo with
        image_url := some "https://cdn.example/img1",
        media_type := some "image" } : Item).video_url
      = some "https://cdn.example/vid0" := by
  constructor
  · rfl
  · rfl

/-- Counterexample to claim C4 as stated: an upload result with
resource_type raw makes add_media_to_item complete without any error,
returning the item with media fields unchanged, instead of failing with
an unsupported-type or inconsistent-state fault. -/
theorem attach_raw_completes_counterexample :
    (add_media_to_item jpegSniff rawBackend [itemWithVideo] ownerReq 1
        smallJpeg).1
      = Except.ok itemWithVideo := by
  rfl

/-- Claim C4 amended: when the item is found, access is allowed and the
upload succeeds with a resource_type that is neither image nor video, the
if/elif in add_media_to_item has no else branch, so the call completes
without error, writing the item back with its media fields unchanged. -/
theorem attach_unknown_type_completes (sniff : List Nat → String)
    (backend : UploadFile → String → Except MediaError UploadResult)
    (st : Store) (cu : Requester) (itemId : Nat) (file : UploadFile)
    (item : Item) (r : UploadResult)
    (hfound : getItem st itemId = some item)
    (hperm : cu.is_superuser = true ∨ item.owner_id = cu.id)
    (hup : upload_file sniff backend file "items" = Except.ok r)
    (himg : r.resource_type ≠ "image") (hvid : r.resource_type ≠ "video") :
    add_media_to_item sniff backend st cu itemId file
      = (Except.ok item, setItem st item) := by
  have hd : deniedCond cu item = false := (deniedCond_false_iff cu item).mpr hperm
  have hap : applyMedia item r = item := by
    simp [applyMedia, himg, hvid]
  simp [add_media_to_item, hfound, hd, hup, hap]

/-- Witness for the amended C4 at a concrete item, requester and backend. -/
theorem attach_unknown_type_completes_witness :
    getItem [itemWithVideo] 1 = some itemWithVideo ∧
    (ownerReq.is_superuser = true ∨ itemWithVideo.owner_id = ownerReq.id) ∧
    upload_file jpegSniff rawBackend smallJpeg "items" = Except.ok rawResult ∧
    rawResult.resource_type ≠ "image" ∧
    rawResult.resource_type ≠ "video" ∧
    add_media_to_item jpegSniff rawBackend [itemWithVideo] ownerReq 1 smallJpeg
      = (Except.ok itemWithVideo, setItem [itemWithVideo] itemWithVideo) :=
  ⟨rfl, Or.inr rfl, rfl, by decide, by decide,
    attach_unknown_type_completes jpegSniff rawBackend [itemWithVideo]
      ownerReq 1 smallJpeg itemWithVideo rawResult rfl (Or.inr rfl) rfl
      (by decide) (by decide)⟩

/-- Claim C5: when upload_file fails, add_media_to_item propagates that
error and returns the store untouched: the persistence write only happens
after a successful upload, so a failed upload leaves the item row and its
media fields unchanged. -/
theorem upload_failure_no_write (sniff : List Nat → String)
    (backend : UploadFile → String → Except MediaError UploadResult)
    (st : Store) (cu : Requester) (itemId : Nat) (file : UploadFile)
    (item : Item) (e : MediaError)
    (hfound : getItem st itemId = some item)
    (hperm : cu.is_superuser = true ∨ item.owner_id = cu.id)
    (hup : upload_file sniff backend file "items" = Except.error e) :
    add_media_to_item sniff backend st cu itemId file = (Except.error e, st) := by
  have hd : deniedCond cu item = false := (deniedCond_false_iff cu item).mpr hperm
  simp [add_media_to_item, hfound, hd, hup]

/-- Witness for C5: a plain-text sniff makes validation (hence the upload
step) fail, and the store comes back unchanged with the same error. -/
theorem upload_failure_no_write_witness :
    getItem [itemWithVideo] 1 = some itemWithVideo ∧
    (ownerReq.is_superuser = true ∨ itemWithVideo.owner_id = ownerReq.id) ∧
    upload_file textSniff imageBackend textFile "items"
      = Except.error (MediaError.unsupportedMediaType "text/plain") ∧
    add_media_to_item textSniff imageBackend [itemWithVideo] ownerReq 1 textFile
      = (Except.error (MediaError.unsupportedMediaType "text/plain"),
         [itemWithVideo]) :=
  ⟨rfl, Or.inr rfl, rfl,
    upload_failure_no_write textSniff imageBackend [itemWithVideo] ownerReq 1
      textFile itemWithVideo (MediaError.unsupportedMediaType "text/plain")
      rfl (Or.inr rfl) rfl⟩

end FastapiItems

namespace FastapiItems

/-- Claim C6: for a file with a declared size, validation fails with the
413 payload-too-large error exactly when the declared size exceeds the
default 10 MB limit of ten times 1024 times 1024 bytes. -/
theorem size_check_iff (sniff : List Nat → String) (file : UploadFile)
    (n : Nat) (h : file.size = some n) :
    (validate_file sniff file 10 = Except.error MediaError.payloadTooLarge
      ↔ 10 * 1024 * 1024 < n) := by
  unfold validate_file
  rw [h]
  by_cases hc : 10 * 1024 * 1024 < n
  · have ht : sizeTruthy (some n) = true := by
      have hn : n ≠ 0 := by omega
      simp [sizeTruthy, hn]
    rw [if_pos ⟨ht, by simpa using hc⟩]
    simp [hc]
  · rw [if_neg (fun hx => hc (by simpa using hx.2))]
    by_cases hm : sniff (file.content.take 2048) ∉
        allowed_image_types ++ allowed_video_types
    · rw [if_pos hm]; simp [hc]
    · rw [if_neg hm]; simp [hc]

/-- A 15 MB upload with valid JPEG magic. -/
def bigJpeg : UploadFile :=
  { size := some (15 * 1024 * 1024), content := [255, 216, 255, 224],
    filename := some "big.jpg", content_type := some "image/jpeg" }

/-- A 5 MB JPEG upload. -/
def midJpeg : UploadFile :=
  { size := some (5 * 1024 * 1024), content := [255, 216, 255, 224],
    filename := some "mid.jpg", content_type := some "image/jpeg" }

/-- Witness for C6: the 15 MB file is rejected with payload-too-large and
the 5 MB JPEG passes validation entirely. -/
theorem size_check_iff_witness :
    bigJpeg.size = some (15 * 1024 * 1024) ∧
    (validate_file jpegSniff bigJpeg 10 = Except.error MediaError.payloadTooLarge
      ↔ 10 * 1024 * 1024 < 15 * 1024 * 1024) ∧
    validate_file jpegSniff midJpeg 10 = Except.ok () :=
  ⟨rfl, size_check_iff jpegSniff bigJpeg (15 * 1024 * 1024) rfl, rfl⟩

/-- Claim C7: validation looks only at the MIME type sniffed from the
first 2048 content bytes. Replacing the filename never changes the
outcome; and when the size check passes, the outcome is ok exactly when
the sniffed type is in the allow-list, otherwise the 400 error naming the
sniffed type. -/
theorem mime_check_spec (sniff : List Nat → String) (file : UploadFile)
    (fn : Option String)
    (hsize : ¬(sizeTruthy file.size = true ∧
      10 * 1024 * 1024 < file.size.getD 0)) :
    validate_file sniff { file with filename := fn } 10
      = validate_file sniff file 10 ∧
    (validate_file sniff file 10 = Except.ok ()
      ↔ sniff (file.content.take 2048) ∈
          allowed_image_types ++ allowed_video_types) ∧
    (sniff (file.content.take 2048) ∉
        allowed_image_types ++ allowed_video_types →
      validate_file sniff file 10
        = Except.error
            (MediaError.unsupportedMediaType (sniff (file.content.take 2048)))) := by
  refine ⟨rfl, ?_, ?_⟩
  · unfold validate_file
    rw [if_neg hsize]
    by_cases hm : sniff (file.content.take 2048) ∉
        allowed_image_types ++ allowed_video_types
    · rw [if_pos hm]
      constructor
      · intro hx; exact Except.noConfusion hx
      · intro hx; exact absurd hx hm
    · rw [if_neg hm]
      constructor
      · intro _; exact not_not.mp hm
      · intro _; rfl
  · intro hm
    unfold validate_file
    rw [if_neg hsize, if_pos hm]

/-- Witness for C7: plain-text bytes carrying the filename photo.jpg are
rejected with the unsupported-type error naming text/plain; the filename
has no influence. -/
theorem mime_check_spec_witness :
    ¬(sizeTruthy textFile.size = true ∧
      10 * 1024 * 1024 < textFile.size.getD 0) ∧
    (validate_file textSniff { textFile with filename := some "other.png" } 10
      = validate_file textSniff textFile 10 ∧
    (validate_file textSniff textFile 10 = Except.ok ()
      ↔ textSniff (textFile.content.take 2048) ∈
          allowed_image_types ++ allowed_video_types) ∧
    (textSniff (textFile.content.take 2048) ∉
        allowed_image_types ++ allowed_video_types →
      validate_file textSniff textFile 10
        = Except.error
            (MediaError.unsupportedMediaType
              (textSniff (textFile.content.take 2048))))) :=
  ⟨by decide,
    mime_check_spec textSniff textFile (some "other.png") (by decide)⟩

end FastapiItems

namespace FastapiItems

/-- Claim C8: once the item is found and access allowed, delete_item
succeeds and removes the row whatever the media backend does: the source
never calls the backend in its cleanup branches, so the outcome is
identical for every mediaDelete behavior, and MediaService.delete_file
itself swallows a backend exception into a false return instead of
raising. -/
theorem delete_unblocked_by_cleanup (d d2 : String → Except String Bool)
    (destroy : String → Except String String)
    (st : Store) (cu : Requester) (itemId : Nat) (item : Item)
    (pid msg : String)
    (hfound : getItem st itemId = some item)
    (hperm : cu.is_superuser = true ∨ item.owner_id = cu.id)
    (hde : destroy pid = Except.error msg) :
    (delete_item d st cu itemId).1 = Except.ok "Item deleted successfully" ∧
    getItem (delete_item d st cu itemId).2 itemId = none ∧
    delete_item d st cu itemId = delete_item d2 st cu itemId ∧
    delete_file_cloudinary destroy pid = false := by
  have hd : deniedCond cu item = false := (deniedCond_false_iff cu item).mpr hperm
  refine ⟨?_, ?_, ?_, ?_⟩
  · simp [delete_item, hfound, hd]
  · simp [delete_item, hfound, hd, getItem_removeItem]
  · simp [delete_item, hfound, hd]
  · simp [delete_file_cloudinary, hde]

/-- A backend destroy stub that always raises. -/
def failDestroy : String → Except String String := fun _ => Except.error "boom"

/-- A mediaDelete stub that always reports failure. -/
def failDelete : String → Except String Bool := fun _ => Except.error "down"

/-- Witness for C8: a superuser deletes the item holding video media while
every cleanup call fails; the row is gone afterward. -/
theorem delete_unblocked_by_cleanup_witness :
    getItem [itemWithVideo] 1 = some itemWithVideo ∧
    (superReq.is_superuser = true ∨ itemWithVideo.owner_id = superReq.id) ∧
    failDestroy "p1" = Except.error "boom" ∧
    ((delete_item failDelete [itemWithVideo] superReq 1).1
        = Except.ok "Item deleted successfully" ∧
      getItem (delete_item failDelete [itemWithVideo] superReq 1).2 1 = none ∧
      delete_item failDelete [itemWithVideo] superReq 1
        = delete_item okDestroy [itemWithVideo] superReq 1 ∧
      delete_file_cloudinary failDestroy "p1" = false) :=
  ⟨rfl, Or.inl rfl, rfl,
    delete_unblocked_by_cleanup failDelete okDestroy failDestroy
      [itemWithVideo] superReq 1 itemWithVideo "p1" "boom" rfl (Or.inl rfl) rfl⟩

/-- Claim C9: when the declared size is absent or zero, Python falsiness
makes the size check a no-op, so validation never fails with the 413
payload-too-large error, whatever the content bytes and the limit. -/
theorem absent_or_zero_size_never_too_large (sniff : List Nat → String)
    (file : UploadFile) (m : Nat)
    (h : file.size = none ∨ file.size = some 0) :
    validate_file sniff file m ≠ Except.error MediaError.payloadTooLarge := by
  have ht : sizeTruthy file.size = false := by
    rcases h with h | h <;> simp [h, sizeTruthy]
  unfold validate_file
  rw [if_neg (fun hx => by rw [ht] at hx; exact Bool.false_ne_true hx.1)]
  by_cases hm : sniff (file.content.take 2048) ∉
      allowed_image_types ++ allowed_video_types
  · rw [if_pos hm]
    intro hx
    exact MediaError.noConfusion (Except.error.inj hx)
  · rw [if_neg hm]
    intro hx
    exact Except.noConfusion hx

/-- A sizeless upload with much more content than the limit allows. -/
def sizelessFile : UploadFile :=
  { size := none, content := List.replicate 64 0,
    filename := none, content_type := none }

/-- Witness for C9 at a sizeless file with a tiny limit of zero bytes. -/
theorem absent_or_zero_size_never_too_large_witness :
    (sizelessFile.size = none ∨ sizelessFile.size = some 0) ∧
    validate_file textSniff sizelessFile 0
      ≠ Except.error MediaError.payloadTooLarge :=
  ⟨Or.inl rfl,
    absent_or_zero_size_never_too_large textSniff sizelessFile 0 (Or.inl rfl)⟩

/-- Claim C10: for every file, valid or not, the standalone upload
handler takes no requester, session item or ownership input at all; the
store passes through untouched, the result is upload_file on the items
folder and so is the same whatever the store holds; when validation
succeeds the backend upload is performed and returned, and a validation
failure propagates as the result. -/
theorem upload_media_requester_free (sniff : List Nat → String)
    (backend : UploadFile → String → Except MediaError UploadResult)
    (st st2 : Store) (file : UploadFile) :
    (upload_media sniff backend st file).2 = st ∧
    (upload_media sniff backend st file).1
      = upload_file sniff backend file "items" ∧
    (upload_media sniff backend st file).1
      = (upload_media sniff backend st2 file).1 ∧
    (validate_file sniff file 10 = Except.ok () →
      (upload_media sniff backend st file).1 = backend file "items") ∧
    (∀ e, validate_file sniff file 10 = Except.error e →
      (upload_media sniff backend st file).1 = Except.error e) := by
  refine ⟨rfl, rfl, rfl, ?_, ?_⟩
  · intro hv
    simp [upload_media, upload_file, hv]
  · intro e hv
    simp [upload_media, upload_file, hv]

/-- Witness for C10: a valid 5 MB JPEG upload returns the backend result
and leaves the store untouched, identically on two different stores. -/
theorem upload_media_requester_free_witness :
    (upload_media jpegSniff imageBackend [itemWithVideo] midJpeg).2
      = [itemWithVideo] ∧
    (upload_media jpegSniff imageBackend [itemWithVideo] midJpeg).1
      = upload_file jpegSniff imageBackend midJpeg "items" ∧
    (upload_media jpegSniff imageBackend [itemWithVideo] midJpeg).1
      = (upload_media jpegSniff imageBackend [] midJpeg).1 ∧
    (validate_file jpegSniff midJpeg 10 = Except.ok () →
      (upload_media jpegSniff imageBackend [itemWithVideo] midJpeg).1
        = imageBackend midJpeg "items") ∧
    (∀ e, validate_file jpegSniff midJpeg 10 = Except.error e →
      (upload_media jpegSniff imageBackend [itemWithVideo] midJpeg).1
        = Except.error e) :=
  upload_media_requester_free jpegSniff imageBackend [itemWithVideo] [] midJpeg

end FastapiItems
